import Mathlib

/-!
Verification of the background job pipeline of the Reddit-Mirror-2-Lemmy
repository: a shallow embedding of the mapping cache (src/db_cache.py), the
job store and dispatcher (src/worker_manager.py, src/job_queue.py), the
worker retry loop (src/worker_base.py), the mirror handler
(src/auto_mirror.py), the comment-sync ignored-set handling
(src/reddit_comment_sync.py) and the credential refresh lock
(src/destinations/lemmy_client.py), together with theorems settling the
specification claims about them.

Machine integers and timestamps are modelled as Nat, SQL tables as lists of
row structures, and SQL statements as list transformations.
-/

namespace Mirror

/-! ### Mapping cache (src/db_cache.py) -/

/-- Row of the posts table of bridge_cache.db (src/db_cache.py _init_db):
columns source, source_post_id, lemmy_id (nullable), community (nullable),
last_synced, with UNIQUE(source, source_post_id). The surrogate id column is
omitted; it is carried by no query of the embedded operations. -/
structure PostRow where
  source : String
  sourcePostId : String
  lemmyId : Option String
  community : Option String
  lastSynced : Nat
deriving Repr, DecidableEq

/-- The UNIQUE(source, source_post_id) key comparison of the posts table. -/
def postKeyEq (source sourcePostId : String) (r : PostRow) : Bool :=
  r.source == source && r.sourcePostId == sourcePostId

/-- Embeds DB.save_post (src/db_cache.py lines 115-123): INSERT OR REPLACE
INTO posts. Under SQLite semantics the rows conflicting on the unique key
(source, source_post_id) are deleted and the fresh row is inserted. -/
def savePost (t : List PostRow) (source sourcePostId lemmyId : String)
    (community : Option String) (now : Nat) : List PostRow :=
  t.filter (fun r => !(postKeyEq source sourcePostId r)) ++
    [{ source := source, sourcePostId := sourcePostId, lemmyId := some lemmyId,
       community := community, lastSynced := now }]

/-- Embeds DB.get_lemmy_post_id (src/db_cache.py lines 125-131): SELECT
lemmy_id FROM posts WHERE source = ? AND source_post_id = ?, returning the
lemmy_id of the matching row if any. -/
def getLemmyPostId (t : List PostRow) (source sourcePostId : String) : Option String :=
  match t.find? (postKeyEq source sourcePostId) with
  | some r => r.lemmyId
  | none => none

/-! ### Job store (src/worker_manager.py, src/worker_base.py) -/

/-- The JSON payload of a job, restricted to the keys the embedded code
reads through json_extract or dict.get: reddit_id, reddit_post_id,
community_name, reddit_comment_id, lemmy_post_id. -/
structure Payload where
  redditId : Option String := none
  redditPostId : Option String := none
  communityName : Option String := none
  redditCommentId : Option String := none
  lemmyPostId : Option Nat := none
deriving Repr, DecidableEq

/-- Embeds the Job dataclass of src/worker_base.py: type, payload, retries
(default 0), max_retries (default 5), next_run (time.time at creation, or
NULL when loaded from a row without it) and the optional DB id. -/
structure Job where
  jtype : String
  payload : Payload
  retries : Nat := 0
  maxRetries : Nat := 5
  nextRun : Option Nat := none
  id : Option Nat := none
deriving Repr, DecidableEq

/-- Row of the jobs table of jobs.db (src/worker_manager.py _create_tables):
id, type, payload, retries, max_retries (default 5), next_run (nullable),
status (default queued). -/
structure JobRow where
  id : Nat
  jtype : String
  payload : Payload
  retries : Nat
  maxRetries : Nat
  nextRun : Option Nat
  status : String
deriving Repr, DecidableEq

/-- Largest id present in the jobs table (0 when empty); AUTOINCREMENT
assigns maxId + 1 to the next insert, rows never being deleted. -/
def maxId (t : List JobRow) : Nat :=
  t.foldr (fun r m => max r.id m) 0

/-- Embeds WorkerManager.save_job (src/worker_manager.py lines 61-78):
INSERT INTO jobs with status hard-coded to queued, then commit; returns
cur.lastrowid. The returned table is the durable state after the commit. -/
def saveJob (t : List JobRow) (j : Job) : List JobRow × Nat :=
  let newId := maxId t + 1
  (t ++ [{ id := newId, jtype := j.jtype, payload := j.payload,
           retries := j.retries, maxRetries := j.maxRetries,
           nextRun := j.nextRun, status := "queued" }], newId)

/-- SELECT of a single job row by id. -/
def getJobRow (t : List JobRow) (i : Nat) : Option JobRow :=
  t.find? (fun r => r.id == i)

/-- Embeds WorkerManager.mark_job_status (src/worker_manager.py lines
80-88): UPDATE jobs SET status=? WHERE id=?. -/
def markJobStatus (t : List JobRow) (i : Nat) (status : String) : List JobRow :=
  t.map (fun r => if r.id == i then { r with status := status } else r)

/-- Conversion of a selected row into the in-memory Job, as done by
WorkerManager.load_queued_jobs when building Job(...) from a row. -/
def rowToJob (r : JobRow) : Job :=
  { jtype := r.jtype, payload := r.payload, retries := r.retries,
    maxRetries := r.maxRetries, nextRun := r.nextRun, id := some r.id }

/-- Row predicate of the dispatch query: status IN ('queued', 'retrying'). -/
def isDue (r : JobRow) : Bool :=
  r.status == "queued" || r.status == "retrying"

/-- Embeds WorkerManager.load_queued_jobs (src/worker_manager.py lines
90-111): SELECT ... FROM jobs WHERE status IN ('queued', 'retrying'),
each row turned into an in-memory Job. -/
def loadQueuedJobs (t : List JobRow) : List Job :=
  (t.filter isDue).map rowToJob

/-! ### JobDB job queue (src/job_queue.py) -/

/-- Row of the jobs table as created by JobDB._init_schema
(src/job_queue.py lines 85-95): id, type, payload, status (default
queued), retries, created_at, updated_at; timestamps as Nat. -/
structure QRow where
  id : Nat
  jtype : String
  payload : Payload
  status : String
  retries : Nat
  createdAt : Nat
  updatedAt : Nat
deriving Repr, DecidableEq

/-- Largest id of the JobDB jobs table. -/
def qMaxId (t : List QRow) : Nat :=
  t.foldr (fun r m => max r.id m) 0

/-- Embeds JobDB.enqueue (src/job_queue.py lines 174-192): INSERT INTO jobs
(type, payload, status, retries, created_at, updated_at) VALUES (?, ?, ?,
0, now, now) followed by commit and a print. The status argument defaults
to "queued" and every caller in the repository uses the default. The first
component is the job id the call returns to its caller: the Python
function has no return statement, so it returns None and the component is
always none. The second component is the durable table after the
commit. -/
def jobDBEnqueue (t : List QRow) (jtype : String) (payload : Payload)
    (status : String) (now : Nat) : Option Nat × List QRow :=
  (none,
   t ++ [{ id := qMaxId t + 1, jtype := jtype, payload := payload,
           status := status, retries := 0, createdAt := now,
           updatedAt := now }])

/-- SELECT of a single JobDB job row by id. -/
def getQRow (t : List QRow) (i : Nat) : Option QRow :=
  t.find? (fun r => r.id == i)

/-! ### The mirror handler (src/auto_mirror.py mirror_post_to_lemmy) -/

/-- The fields of a fetched Reddit submission that mirror_post_to_lemmy
reads before calling the destination. -/
structure PostData where
  subreddit : Option String
deriving Repr, DecidableEq

/-- Observable calls the handler makes on its collaborators (token broker,
community lookup, destination client). The mapping-cache read
get_lemmy_post_id would be recorded as cacheGet; mirror_post_to_lemmy
performs no such call. -/
inductive Effect
  | getValidToken
  | getCommunityId (name : String)
  | createLemmyPost (subreddit : String) (communityId : Option Nat)
  | cacheGet (source sourcePostId : String)
deriving Repr, DecidableEq

/-- Environment of one mirror_post_to_lemmy run: the result of
fetch_reddit_submission, the hot-reloaded SUB_MAP, the community id
returned by get_community_id, and the post id the destination assigns on
creation. -/
structure MirrorEnv where
  fetch : Option PostData
  subMap : List (String × String)
  commId : Option Nat
  newLemmyId : Nat
deriving Repr, DecidableEq

/-- Dictionary get with default, as SUB_MAP.get(key, default). -/
def lookupDefault (m : List (String × String)) (k dflt : String) : String :=
  match m.find? (fun p => p.fst == k) with
  | some p => p.snd
  | none => dflt

instance : DecidableEq (Except String (Option Nat)) := fun a b =>
  match a, b with
  | .error x, .error y => decidable_of_iff (x = y) (by simp)
  | .ok x, .ok y => decidable_of_iff (x = y) (by simp)
  | .error _, .ok _ => isFalse (by simp)
  | .ok _, .error _ => isFalse (by simp)

/-- Result and state after one mirror_post_to_lemmy run: the jobs table,
the mapping cache, the status writes performed on the jobs table (row id,
status), the collaborator effects in order, and the returned lemmy id
(ok none stands for the dict with lemmy_id None) or the raised exception. -/
structure MirrorOut where
  jobs : List JobRow
  cache : List PostRow
  writesJ : List (Nat × String)
  effects : List Effect
  result : Except String (Option Nat)
deriving Repr, DecidableEq

/-- Row predicate of the skip UPDATE in mirror_post_to_lemmy: type =
'mirror_post' AND json_extract(payload, '$.reddit_post_id') = reddit_id. -/
def skipMatch (rid : String) (r : JobRow) : Bool :=
  r.jtype == "mirror_post" && r.payload.redditPostId == some rid

/-- Embeds mirror_post_to_lemmy (src/auto_mirror.py lines 792-867).
Control flow of the source: read reddit_id from the payload keys reddit_id
or reddit_post_id, raising ValueError when both are absent; when the fetch
returns nothing, UPDATE matching jobs rows to status skipped and return
lemmy_id None; otherwise obtain a token, raise RuntimeError when the
submission has no subreddit, resolve the community through SUB_MAP, create
the Lemmy post, record the mapping through db.save_post called with the
positional arguments (reddit_id, str(lemmy_id), subreddit) — which bind to
save_post's parameters source, source_post_id and lemmy_id in that order —
and finally insert a queued mirror_comment job unless one with the same
payload reddit_id already exists. No call consults the mapping cache
before the creation. -/
def mirrorPostToLemmy (env : MirrorEnv) (jobs : List JobRow)
    (cache : List PostRow) (payload : Payload) (now : Nat) : MirrorOut :=
  let rid? := match payload.redditId with
    | some r => some r
    | none => payload.redditPostId
  match rid? with
  | none =>
    { jobs := jobs, cache := cache, writesJ := [], effects := [],
      result := .error "ValueError" }
  | some rid =>
    match env.fetch with
    | none =>
      let jobs1 := jobs.map (fun r =>
        if skipMatch rid r then { r with status := "skipped" } else r)
      let w := (jobs.filter (skipMatch rid)).map (fun r => (r.id, "skipped"))
      { jobs := jobs1, cache := cache, writesJ := w, effects := [],
        result := .ok none }
    | some pd =>
      match pd.subreddit with
      | none =>
        { jobs := jobs, cache := cache, writesJ := [],
          effects := [.getValidToken], result := .error "RuntimeError" }
      | some sub =>
        let communityName := lookupDefault env.subMap sub.toLower sub.toLower
        let lemmyId := env.newLemmyId
        let cache1 := savePost cache rid (toString lemmyId) sub none now
        let hasCommentJob := jobs.any (fun r =>
          r.jtype == "mirror_comment" && r.payload.redditId == some rid)
        let commentRow : JobRow :=
          { id := maxId jobs + 1, jtype := "mirror_comment",
            payload := { redditId := some rid,
                         redditCommentId := some ("auto_" ++ rid),
                         lemmyPostId := some lemmyId },
            retries := 0, maxRetries := 5, nextRun := none, status := "queued" }
        let jobs1 := if hasCommentJob then jobs else jobs ++ [commentRow]
        let w := if hasCommentJob then [] else [(commentRow.id, "queued")]
        { jobs := jobs1, cache := cache1, writesJ := w,
          effects := [.getValidToken, .getCommunityId communityName,
                      .createLemmyPost sub env.commId],
          result := .ok (some lemmyId) }

/-! ### Pipeline state machine (dispatcher of src/worker_manager.py
start_all plus the worker loop of src/worker_base.py) -/

/-- Shared state of one pipeline run: the persisted jobs table, the
worker's in-memory intake queue (asyncio.Queue as a FIFO list), the
mapping cache, the ignored set, the trace of persisted status writes
(row id, status) in order (the INSERT of a queued row included), and the
job types with a registered worker (the keys of self.workers, fixed after
startup registration). -/
structure SysState where
  table : List JobRow
  wq : List Job
  cache : List PostRow
  ignored : List (String × String)
  writes : List (Nat × String)
  workers : List String
deriving Repr, DecidableEq

/-- Initial state with the worker types background_worker.py registers:
mirror_lemmy_comment, mirror_reddit_comment, mirror_post and
mirror_comment. -/
def initState : SysState :=
  { table := [], wq := [], cache := [], ignored := [], writes := [],
    workers := ["mirror_lemmy_comment", "mirror_reddit_comment",
                "mirror_post", "mirror_comment"] }

/-- How one process invocation ends: the handler returns normally with no
database side effects, raises, or is mirror_post_to_lemmy run under the
given environment. -/
inductive Outcome
  | ok
  | fail
  | mirrorPost (env : MirrorEnv)
deriving Repr, DecidableEq

/-- One step of the cooperative system: persist a new job
(WorkerManager.enqueue_job_direct builds Job(type, payload,
next_run=time.time()) and saves it), run one dispatch poll cycle, or have
the worker pop and process the head of its queue at the given time. -/
inductive Step
  | save (jtype : String) (payload : Payload) (now : Nat)
  | poll
  | work (o : Outcome) (now : Nat)
deriving Repr, DecidableEq

/-- Fold of markJobStatus over a list of row ids, all set in_progress. -/
def markMany (t : List JobRow) (ids : List Nat) : List JobRow :=
  ids.foldl (fun acc i => markJobStatus acc i "in_progress") t

def saveStep (s : SysState) (jtype : String) (payload : Payload)
    (now : Nat) : SysState :=
  let p := saveJob s.table { jtype := jtype, payload := payload, nextRun := some now }
  { s with table := p.fst, writes := s.writes ++ [(p.snd, "queued")] }

/-- Embeds one iteration of the polling loop in WorkerManager.start_all
(src/worker_manager.py lines 148-156): load every queued or retrying row;
for each loaded job whose type is in self.workers, put it into that
worker's intake queue and only then UPDATE its status to in_progress with
a separate statement; jobs of a type with no registered worker are left
untouched (still queued) and will be re-selected by the next cycle. -/
def pollStep (s : SysState) : SysState :=
  let js := (loadQueuedJobs s.table).filter
    (fun j => s.workers.contains j.jtype)
  let ids := js.filterMap (fun j => j.id)
  { s with table := markMany s.table ids,
           wq := s.wq ++ js,
           writes := s.writes ++ ids.map (fun i => (i, "in_progress")) }

/-- Embeds BaseWorker._handle_failure (src/worker_base.py lines 79-93):
increment retries; when retries now exceed max_retries the job is failed
(second component none); otherwise delay = 2 ** retries, next_run =
now + delay and the job is to be requeued (second component the delay). -/
def handleFailure (j : Job) (now : Nat) : Job × Option Nat :=
  let j1 := { j with retries := j.retries + 1 }
  if j1.retries > j1.maxRetries then (j1, none)
  else ({ j1 with nextRun := some (now + 2 ^ j1.retries) }, some (2 ^ j1.retries))

/-- The worker loop's normalization of next_run (src/worker_base.py lines
59-61): a null (or Python-falsy 0) next_run is replaced by the current
time. -/
def normalizeNextRun (nr : Option Nat) (now : Nat) : Option Nat :=
  match nr with
  | none => some now
  | some 0 => some now
  | some t => some t

/-- Embeds one iteration of BaseWorker._worker_loop (src/worker_base.py
lines 38-93) for the job at the head of the intake queue: normalize
next_run, mark the row in_progress, run process, then mark done on normal
return; on an exception run _handle_failure, which marks the row failed,
or marks it queued and re-puts the job at the tail of the intake queue. -/
def workStep (s : SysState) (o : Outcome) (now : Nat) : SysState :=
  match s.wq with
  | [] => s
  | j0 :: rest =>
    let j := { j0 with nextRun := normalizeNextRun j0.nextRun now }
    let s1 : SysState :=
      match j.id with
      | some i =>
        { s with wq := rest, table := markJobStatus s.table i "in_progress",
                 writes := s.writes ++ [(i, "in_progress")] }
      | none => { s with wq := rest }
    let finish (s2 : SysState) (failed : Bool) : SysState :=
      if failed then
        let p := handleFailure j now
        match p.snd, j.id with
        | none, some i =>
          { s2 with table := markJobStatus s2.table i "failed",
                    writes := s2.writes ++ [(i, "failed")] }
        | none, none => s2
        | some _, some i =>
          { s2 with table := markJobStatus s2.table i "queued",
                    writes := s2.writes ++ [(i, "queued")],
                    wq := s2.wq ++ [p.fst] }
        | some _, none => { s2 with wq := s2.wq ++ [p.fst] }
      else
        match j.id with
        | some i =>
          { s2 with table := markJobStatus s2.table i "done",
                    writes := s2.writes ++ [(i, "done")] }
        | none => s2
    match o with
    | .ok => finish s1 false
    | .fail => finish s1 true
    | .mirrorPost env =>
      let out := mirrorPostToLemmy env s1.table s1.cache j.payload now
      let s2 := { s1 with table := out.jobs, cache := out.cache,
                          writes := s1.writes ++ out.writesJ }
      match out.result with
      | .ok _ => finish s2 false
      | .error _ => finish s2 true

def applyStep (s : SysState) : Step → SysState
  | .save ty p now => saveStep s ty p now
  | .poll => pollStep s
  | .work o now => workStep s o now

def runSteps (s : SysState) (steps : List Step) : SysState :=
  steps.foldl applyStep s

/-- The sequence of persisted statuses recorded for one row id. -/
def statusHistory (s : SysState) (i : Nat) : List String :=
  (s.writes.filter (fun w => w.fst == i)).map (fun w => w.snd)

/-! ### Discovery (src/auto_mirror.py mirror_once) -/

/-- Embeds the per-submission decision of mirror_once (src/auto_mirror.py
lines 933-951): SELECT id FROM jobs WHERE type='mirror_post' AND
json_extract(payload, '$.reddit_post_id') = reddit_post_id; when a row
exists the submission is skipped, otherwise JobDB.enqueue inserts a queued
mirror_post job with payload keys reddit_post_id and community_name. -/
def discoverPost (jobs : List JobRow) (rid communityName : String) :
    List JobRow :=
  if jobs.any (fun r => r.jtype == "mirror_post" &&
      r.payload.redditPostId == some rid) then jobs
  else
    jobs ++ [{ id := maxId jobs + 1, jtype := "mirror_post",
               payload := { redditPostId := some rid,
                            communityName := some communityName },
               retries := 0, maxRetries := 5, nextRun := none,
               status := "queued" }]

/-! ### Ignored set and comment sync (src/reddit_comment_sync.py) -/

/-- Modelled from the spec: the ignored-posts store behind the calls
db.get_ignored_posts() and db.mark_post_ignored(reddit_post_id, reason)
in src/reddit_comment_sync.py; the definitions of those two DB methods are
not among the provided sources. Spec section 4.4 describes the companion
Ignored set: mark_ignored(source_id, reason) records a source_id with a
reason, and is_ignored(source_id) reports membership. The store is a list
of (source_id, reason) pairs, marking being idempotent on the key. -/
def markPostIgnored (ign : List (String × String)) (rid reason : String) :
    List (String × String) :=
  if ign.any (fun p => p.fst == rid) then ign else ign ++ [(rid, reason)]

/-- Modelled from the spec: get_ignored_posts returns the ignored
source_ids. -/
def getIgnoredPosts (ign : List (String × String)) : List String :=
  ign.map (fun p => p.fst)

/-- Modelled from the spec: is_ignored(source_id) membership test of the
Ignored set. -/
def isIgnored (ign : List (String × String)) (rid : String) : Bool :=
  (getIgnoredPosts ign).contains rid

/-- Result of replace_more/comments.list() for one post in
mirror_new_reddit_replies: success, an exception whose text contains 403
or forbidden, or another exception. -/
inductive FetchComments
  | ok
  | forbidden
  | otherError
deriving Repr, DecidableEq

/-- One iteration of the posts loop in mirror_new_reddit_replies
(src/reddit_comment_sync.py lines 82-107), restricted to the ignored-set
handling: a post in the snapshot of the ignored set is skipped; a
forbidden comment fetch marks the post ignored and continues; any other
error continues; on success the post's comments are processed (the post is
appended to the attempted list). -/
def syncStep (snapshot : List String) (fetch : String → FetchComments)
    (acc : List (String × String) × List String) (rid : String) :
    List (String × String) × List String :=
  if snapshot.contains rid then acc
  else
    match fetch rid with
    | .forbidden => (markPostIgnored acc.fst rid "forbidden", acc.snd)
    | .otherError => acc
    | .ok => (acc.fst, acc.snd ++ [rid])

/-- Embeds the ignored-set behaviour of one mirror_new_reddit_replies pass
(src/reddit_comment_sync.py lines 79-107): the ignored set is read once
into a snapshot before the loop, then each mirrored post is handled by
syncStep. Returns the ignored store after the pass and the posts whose
comments were actually processed. -/
def commentSyncPass (ign0 : List (String × String)) (posts : List String)
    (fetch : String → FetchComments) :
    List (String × String) × List String :=
  posts.foldl (syncStep (getIgnoredPosts ign0) fetch) (ign0, [])

/-! ### Credential refresh (src/destinations/lemmy_client.py) -/

/-- Shared cross-process state of the credential refresh: the mtime of the
login.lock file (none when absent), the cached token file content as
(token serial, expires), and the count of remote login requests issued.
Token serials number the logins, the i-th login producing serial i. -/
structure CredState where
  lockMtime : Option Nat
  token : Option (Nat × Nat)
  logins : Nat
deriving Repr, DecidableEq

/-- TOKEN_TTL_HOURS = 4, in seconds. -/
def tokenTTL : Nat := 4 * 3600

/-- LOGIN_LOCK_TIMEOUT = 90 seconds. -/
def loginLockTimeout : Nat := 90

/-- Program counter of one task running LemmyClient._refresh_token
(src/destinations/lemmy_client.py lines 101-134), each constructor one
atomic step of the source: checkLock is the exists/mtime test inside
_acquire_login_lock (lines 61-68), touchLock the TOKEN_LOCK.touch(),
doLogin the requests.post to /api/v3/user/login, writeTok (carrying the
obtained serial) the _write_json of the token file, waitSleep the
time.sleep(5) of the cooldown path, readTok the re-read of the token
file, and finished (carrying the returned token serial) the return. -/
inductive RefreshPC
  | checkLock
  | touchLock
  | doLogin
  | writeTok (serial : Nat)
  | waitSleep
  | readTok
  | finished (serial : Nat)
deriving Repr, DecidableEq

/-- One atomic step of a task at the given program counter against the
shared state, at (frozen) wall-clock time now, following _refresh_token:
the lock check branches to the touch when the lock file is absent or at
least LOGIN_LOCK_TIMEOUT old, and to the cooldown wait otherwise; the
cooldown path re-reads the token file after the sleep and returns its
token when unexpired, otherwise falls through to the login; the login
increments the login counter and the write publishes the token with a
TOKEN_TTL_HOURS expiry. -/
def refreshStep (sh : CredState) (pc : RefreshPC) (now : Nat) :
    CredState × RefreshPC :=
  match pc with
  | .checkLock =>
    match sh.lockMtime with
    | none => (sh, .touchLock)
    | some m =>
      if now - m < loginLockTimeout then (sh, .waitSleep)
      else (sh, .touchLock)
  | .touchLock => ({ sh with lockMtime := some now }, .doLogin)
  | .doLogin =>
    ({ sh with logins := sh.logins + 1 }, .writeTok (sh.logins + 1))
  | .writeTok serial =>
    ({ sh with token := some (serial, now + tokenTTL) }, .finished serial)
  | .waitSleep => (sh, .readTok)
  | .readTok =>
    match sh.token with
    | some tk => if now < tk.snd then (sh, .finished tk.fst) else (sh, .doLogin)
    | none => (sh, .doLogin)
  | .finished serial => (sh, .finished serial)

/-- Two tasks concurrently inside _refresh_token: the shared state and
each task's program counter. -/
structure RefreshSys where
  shared : CredState
  pcA : RefreshPC
  pcB : RefreshPC
deriving Repr, DecidableEq

/-- Run one step of task A (false) or task B (true). -/
def refreshSysStep (sys : RefreshSys) (tid : Bool) (now : Nat) : RefreshSys :=
  if tid then
    let p := refreshStep sys.shared sys.pcB now
    { sys with shared := p.fst, pcB := p.snd }
  else
    let p := refreshStep sys.shared sys.pcA now
    { sys with shared := p.fst, pcA := p.snd }

/-- Run an interleaving schedule of the two tasks. -/
def runSched (sys : RefreshSys) (sched : List Bool) (now : Nat) : RefreshSys :=
  sched.foldl (fun acc tid => refreshSysStep acc tid now) sys

/-! ### Registration check (src/worker_manager.py enqueue_job) -/

/-- Embeds WorkerManager.enqueue_job (src/worker_manager.py lines
122-127): when no worker is registered for the job type a ValueError is
raised and nothing is persisted; otherwise a Job with default retries and
max_retries is built, saved through save_job, and its id returned. The
second component is the jobs table after the call. -/
def enqueueJob (workers : List String) (t : List JobRow) (jtype : String)
    (payload : Payload) (now : Nat) : Except String Nat × List JobRow :=
  if workers.contains jtype then
    let p := saveJob t { jtype := jtype, payload := payload, nextRun := some now }
    (.ok p.snd, p.fst)
  else
    (.error "ValueError", t)

/-! ### Status path validity (claim C3) -/

/-- The transition relation stated by the claim: queued to in_progress,
in_progress to done, failed, skipped or (retry) back to queued. -/
def claimEdge : String → String → Bool
  | "queued", "in_progress" => true
  | "in_progress", "done" => true
  | "in_progress", "failed" => true
  | "in_progress", "skipped" => true
  | "in_progress", "queued" => true
  | _, _ => false

/-- The transition relation extended by the edge the code actually takes:
the worker loop overwrites a handler-written skipped status with done. -/
def extEdge : String → String → Bool
  | "skipped", "done" => true
  | a, b => claimEdge a b

/-- Every consecutive pair of persisted statuses is either equal (a
rewrite of the same status is not a transition) or an allowed edge. -/
def chainFrom (edge : String → String → Bool) (prev : String) :
    List String → Bool
  | [] => true
  | x :: xs => (prev == x || edge prev x) && chainFrom edge x xs

/-- A persisted status sequence is a valid path when it starts at queued
and every transition follows an allowed edge. -/
def validPath (edge : String → String → Bool) : List String → Bool
  | [] => true
  | x :: xs => (x == "queued") && chainFrom edge x xs

/-! ### Shared concrete fixtures -/

/-- Payload enqueued by discovery for the Reddit post p1. -/
def plP1 : Payload := { redditPostId := some "p1", communityName := some "sub" }

/-- Mirror environment in which fetch_reddit_submission finds nothing. -/
def envAbsent : MirrorEnv :=
  { fetch := none, subMap := [], commId := none, newLemmyId := 0 }

/-- Mirror environment in which the submission exists in subreddit sub,
the community resolves to id 5 and the destination assigns post id 99. -/
def envFound : MirrorEnv :=
  { fetch := some { subreddit := some "sub" }, subMap := [], commId := some 5,
    newLemmyId := 99 }

/-! ### Helper lemmas -/

lemma filter_filter_not {α} (p : α → Bool) (l : List α) :
    (l.filter (fun r => !(p r))).filter p = [] := by
  induction l with
  | nil => rfl
  | cons a l ih =>
    by_cases h : p a = true
    · simp [List.filter_cons, h, ih]
    · simp only [Bool.not_eq_true] at h
      simp [List.filter_cons, h, ih]

lemma mem_le_maxId {t : List JobRow} {r : JobRow} (h : r ∈ t) :
    r.id ≤ maxId t := by
  induction t with
  | nil => cases h
  | cons a l ih =>
    rcases List.mem_cons.mp h with h1 | h1
    · subst h1; exact Nat.le_max_left _ _
    · exact Nat.le_trans (ih h1) (Nat.le_max_right _ _)

lemma mem_le_qMaxId {t : List QRow} {r : QRow} (h : r ∈ t) :
    r.id ≤ qMaxId t := by
  induction t with
  | nil => cases h
  | cons a l ih =>
    rcases List.mem_cons.mp h with h1 | h1
    · subst h1; exact Nat.le_max_left _ _
    · exact Nat.le_trans (ih h1) (Nat.le_max_right _ _)

lemma find_append_of_none {α} (p : α → Bool) {l1 : List α} (l2 : List α)
    (h : ∀ a ∈ l1, p a = false) :
    (l1 ++ l2).find? p = l2.find? p := by
  induction l1 with
  | nil => rfl
  | cons a l ih =>
    have ha := h a (List.mem_cons_self a l)
    simp only [List.cons_append, List.find?, ha]
    exact ih (fun b hb => h b (List.mem_cons_of_mem a hb))

lemma getJobRow_saveJob (t : List JobRow) (j : Job) :
    getJobRow (saveJob t j).fst (saveJob t j).snd =
      some { id := maxId t + 1, jtype := j.jtype, payload := j.payload,
             retries := j.retries, maxRetries := j.maxRetries,
             nextRun := j.nextRun, status := "queued" } := by
  unfold getJobRow saveJob
  rw [find_append_of_none]
  · simp
  · intro r hr
    have hle := mem_le_maxId hr
    have hne : r.id ≠ maxId t + 1 := by omega
    simpa using hne

lemma getQRow_enqueue (t : List QRow) (jtype : String) (payload : Payload)
    (status : String) (now : Nat) :
    getQRow (jobDBEnqueue t jtype payload status now).snd (qMaxId t + 1) =
      some { id := qMaxId t + 1, jtype := jtype, payload := payload,
             status := status, retries := 0, createdAt := now,
             updatedAt := now } := by
  unfold getQRow jobDBEnqueue
  rw [find_append_of_none]
  · simp
  · intro r hr
    have hle := mem_le_qMaxId hr
    have hne : r.id ≠ qMaxId t + 1 := by omega
    simpa using hne

/-! ### Claim C6 -/

/-- Claim C6 counterexample: the claim states that for every call to
enqueue(type, payload) the returned job_id is immediately retrievable
with status queued. JobDB.enqueue has no return statement and returns
None: at the concrete call below the returned job id is none, so no
returned job_id exists to retrieve, refuting the claim for the
JobDB.enqueue path — even though the inserted row itself is durably
persisted with status queued and retrievable by its autoincrement id. -/
theorem c6_jobdb_returns_no_id :
    (jobDBEnqueue [] "mirror_post" plP1 "queued" 5).fst = none ∧
    ((getQRow (jobDBEnqueue [] "mirror_post" plP1 "queued" 5).snd 1).map
      (fun r => r.status) = some "queued") := by
  decide

/-- Claim C6 amended: WorkerManager.save_job durably persists the job
with status queued before returning and returns the fresh row id
(lastrowid), which immediately retrieves the queued row from the
committed table — the durable state a crash after the return preserves;
JobDB.enqueue also durably persists its row with status queued (the
default status argument) before returning, but returns None rather than
a job id, the inserted row being retrievable only by its autoincrement
id, not by a returned value. -/
theorem c6_enqueue_durable_queued (t : List JobRow) (j : Job)
    (tq : List QRow) (jtype : String) (payload : Payload) (now : Nat) :
    ((getJobRow (saveJob t j).fst (saveJob t j).snd).map
        (fun r => r.status) = some "queued") ∧
    ((jobDBEnqueue tq jtype payload "queued" now).fst = none) ∧
    ((getQRow (jobDBEnqueue tq jtype payload "queued" now).snd
        (qMaxId tq + 1)).map (fun r => r.status) = some "queued") := by
  refine ⟨?_, rfl, ?_⟩
  · rw [getJobRow_saveJob]; rfl
  · rw [getQRow_enqueue]; rfl

/-! ### Claim C7 -/

/-- Claim C7: MappingCache.put is an idempotent upsert: calling save_post
twice with the same (source, source_post_id) key, even with different
lemmy_id values, leaves exactly one row for that key, and that row holds
the latest lemmy_id, with last write winning on community and
last_synced. -/
theorem c7_put_idempotent_upsert (t : List PostRow) (src pid v1 v2 : String)
    (c1 c2 : Option String) (n1 n2 : Nat) :
    (savePost (savePost t src pid v1 c1 n1) src pid v2 c2 n2).filter
        (postKeyEq src pid) =
      [{ source := src, sourcePostId := pid, lemmyId := some v2,
         community := c2, lastSynced := n2 }] := by
  unfold savePost
  rw [List.filter_append, filter_filter_not]
  simp [postKeyEq]

/-! ### Claim C10 -/

/-- Claim C10: WorkerManager.enqueue_job with a job type that has no
registered worker raises ValueError and leaves the persisted jobs table
unchanged: the registration check precedes save_job, so no row is
inserted. -/
theorem c10_unregistered_type_no_insert (workers : List String)
    (t : List JobRow) (jtype : String) (payload : Payload) (now : Nat)
    (h : workers.contains jtype = false) :
    enqueueJob workers t jtype payload now = (.error "ValueError", t) := by
  have h2 : jtype ∉ workers := by simpa using h
  simp [enqueueJob, h2]

/-- Witness for C10 at a concrete input: one registered worker type
mirror_post, an enqueue for the unregistered type mirror_comment against a
one-row table, ending in ValueError with the table unchanged. -/
theorem c10_unregistered_type_no_insert_witness :
    (["mirror_post"] : List String).contains "mirror_comment" = false ∧
    enqueueJob ["mirror_post"]
        [{ id := 1, jtype := "mirror_post", payload := plP1, retries := 0,
           maxRetries := 5, nextRun := some 3, status := "queued" }]
        "mirror_comment" plP1 7 =
      (.error "ValueError",
        [{ id := 1, jtype := "mirror_post", payload := plP1, retries := 0,
           maxRetries := 5, nextRun := some 3, status := "queued" }]) :=
  ⟨by decide,
   c10_unregistered_type_no_insert ["mirror_post"]
     [{ id := 1, jtype := "mirror_post", payload := plP1, retries := 0,
        maxRetries := 5, nextRun := some 3, status := "queued" }]
     "mirror_comment" plP1 7 (by decide)⟩

/-! ### Claim C1 -/

/-- Claim C1 counterexample: the claim states that the MappingCache is
consulted (get) before a destination item is created and that a
mirror_item job for a source id already present in the MappingCache
completes without invoking the create operation. At the concrete state
below the cache already maps (reddit, p1) to lemmy id 77, yet running
mirror_post_to_lemmy for p1 invokes the destination's create operation
and performs no cache read at all, so the claim is false. -/
theorem c1_create_despite_mapping :
    getLemmyPostId
        [{ source := "reddit", sourcePostId := "p1", lemmyId := some "77",
           community := some "sub", lastSynced := 0 }] "reddit" "p1" =
      some "77" ∧
    Effect.createLemmyPost "sub" (some 5) ∈
      (mirrorPostToLemmy envFound []
        [{ source := "reddit", sourcePostId := "p1", lemmyId := some "77",
           community := some "sub", lastSynced := 0 }] plP1 11).effects ∧
    (∀ src pid : String, Effect.cacheGet src pid ∉
      (mirrorPostToLemmy envFound []
        [{ source := "reddit", sourcePostId := "p1", lemmyId := some "77",
           community := some "sub", lastSynced := 0 }] plP1 11).effects) := by
  refine ⟨by decide, by decide, ?_⟩
  intro src pid h
  simp [mirrorPostToLemmy, envFound, plP1, lookupDefault] at h

/-- Claim C1 amended: mirror_post_to_lemmy consults no mapping before
creating; duplicate suppression for posts happens only at discovery time,
where mirror_once declines to enqueue a mirror_post job when a jobs row
with the same payload reddit_post_id already exists, so a re-delivered
mirror_post job for an already mapped source id does invoke create again.
This theorem proves the discovery-time dedup: when such a row exists the
discovery pass leaves the jobs table unchanged. -/
theorem c1_discovery_dedup (jobs : List JobRow) (rid cname : String)
    (h : jobs.any (fun r => r.jtype == "mirror_post" &&
        r.payload.redditPostId == some rid) = true) :
    discoverPost jobs rid cname = jobs := by
  simp only [discoverPost, h, if_pos]

/-- Witness for the amended C1 at a concrete input: a table already
holding a mirror_post job for p1, on which discovery enqueues nothing. -/
theorem c1_discovery_dedup_witness :
    ([{ id := 1, jtype := "mirror_post", payload := plP1, retries := 0,
        maxRetries := 5, nextRun := none, status := "done" }] :
      List JobRow).any (fun r => r.jtype == "mirror_post" &&
        r.payload.redditPostId == some "p1") = true ∧
    discoverPost
        [{ id := 1, jtype := "mirror_post", payload := plP1, retries := 0,
           maxRetries := 5, nextRun := none, status := "done" }] "p1" "sub" =
      [{ id := 1, jtype := "mirror_post", payload := plP1, retries := 0,
         maxRetries := 5, nextRun := none, status := "done" }] :=
  ⟨by decide,
   c1_discovery_dedup
     [{ id := 1, jtype := "mirror_post", payload := plP1, retries := 0,
        maxRetries := 5, nextRun := none, status := "done" }] "p1" "sub"
     (by decide)⟩

/-! ### Claim C2 -/

/-- Claim C2 counterexample: the claim states the dispatcher flips status
to in_progress atomically in the selecting transaction so that no job is
handed to a worker twice concurrently. In the concrete run below a job is
saved, dispatched by a poll cycle, fails once — _handle_failure marks it
queued and re-puts it directly into the intake queue — and the next poll
cycle, seeing status queued, hands it out again: the intake queue then
holds the same job id twice concurrently, refuting at-most-once
dispatch. -/
theorem c2_job_pending_twice :
    ((runSteps initState
        [Step.save "mirror_post" plP1 3, Step.poll, Step.work .fail 10,
         Step.poll]).wq.filter (fun j => j.id == some 1)).length = 2 := by
  decide

lemma markMany_cons (t : List JobRow) (i : Nat) (ids : List Nat) :
    markMany t (i :: ids) = markMany (markJobStatus t i "in_progress") ids :=
  rfl

lemma markMany_due_unregistered (workers : List String) (t : List JobRow)
    (ids : List Nat)
    (h : ∀ r ∈ t, isDue r = true → workers.contains r.jtype = true →
      r.id ∈ ids) :
    ∀ r ∈ markMany t ids, isDue r = true →
      workers.contains r.jtype = false := by
  induction ids generalizing t with
  | nil =>
    intro r hr hdue
    by_contra hreg
    have hreg2 : workers.contains r.jtype = true := by
      simpa using hreg
    exact absurd (h r hr hdue hreg2) (List.not_mem_nil r.id)
  | cons i ids ih =>
    rw [markMany_cons]
    apply ih
    intro r hr hdue hreg
    rcases List.mem_map.mp hr with ⟨r0, hr0, heq⟩
    by_cases hid : (r0.id == i) = true
    · exfalso
      rw [if_pos hid] at heq
      subst heq
      simp [isDue] at hdue
    · rw [if_neg hid] at heq
      subst heq
      have := h r0 hr0 hdue hreg
      rcases List.mem_cons.mp this with h1 | h1
      · exact absurd (by simpa using h1) (by simpa using hid)
      · exact h1

lemma filter_map_comm {α β} (f : α → β) (p : β → Bool) (l : List α) :
    (l.map f).filter p = (l.filter (fun a => p (f a))).map f := by
  induction l with
  | nil => rfl
  | cons a l ih =>
    simp only [List.map_cons, List.filter_cons]
    cases h : p (f a) <;> simp [h, ih]

/-- Claim C2 amended: the dispatch loop selects due jobs with one query
and flips each dispatched job to in_progress with a separate UPDATE only
after handing it to the pool, so dispatch is not atomic, and a job
re-queued by the retry path can be pending twice concurrently (once from
the direct re-put by _handle_failure and once from the next poll). What
does hold is that a poll cycle flips every registered-type job it hands
out, so a second poll cycle running immediately after a completed one
selects only rows of unregistered types — which it never hands out — and
in particular re-dispatches nothing the first cycle handed out. -/
theorem c2_completed_cycle_selects_nothing (s : SysState) :
    ((loadQueuedJobs (pollStep s).table).all
      (fun j => !(s.workers.contains j.jtype))) = true := by
  have hids : ((loadQueuedJobs s.table).filter
      (fun j => s.workers.contains j.jtype)).filterMap (fun j => j.id) =
      ((s.table.filter isDue).filter
        (fun r => s.workers.contains r.jtype)).map JobRow.id := by
    unfold loadQueuedJobs
    rw [filter_map_comm, List.filterMap_map]
    have h1 : ((fun j : Job => j.id) ∘ rowToJob) = (some ∘ JobRow.id) := by
      funext r; rfl
    rw [h1, List.filterMap_eq_map]
    rfl
  have htab : (pollStep s).table = markMany s.table
      (((s.table.filter isDue).filter
        (fun r => s.workers.contains r.jtype)).map JobRow.id) := by
    show markMany s.table (((loadQueuedJobs s.table).filter
      (fun j => s.workers.contains j.jtype)).filterMap (fun j => j.id)) = _
    rw [hids]
  rw [List.all_eq_true]
  intro j hj
  rw [htab] at hj
  unfold loadQueuedJobs at hj
  rcases List.mem_map.mp hj with ⟨r, hrf, heq⟩
  rcases List.mem_filter.mp hrf with ⟨hrT, hdue⟩
  have hout := markMany_due_unregistered s.workers s.table
    (((s.table.filter isDue).filter
      (fun r => s.workers.contains r.jtype)).map JobRow.id)
    (fun r0 hr0 hdue0 hreg0 =>
      List.mem_map.mpr
        ⟨r0, List.mem_filter.mpr ⟨List.mem_filter.mpr ⟨hr0, hdue0⟩, hreg0⟩,
         rfl⟩)
    r hrT hdue
  subst heq
  simpa using hout

/-! ### Claim C3 -/

/-- The canonical single-worker schedule: save one mirror_post job for p1,
dispatch it with one poll cycle, fail it k times (the re-put copy being
popped directly, with no overlapping poll), then end with the given work
step. -/
def canonRun (k : Nat) (last : List Step) : List Step :=
  [Step.save "mirror_post" plP1 3, Step.poll] ++
    List.replicate k (Step.work .fail 10) ++ last

/-- Claim C3 counterexample: the claim states that persisted statuses move
only along queued to in_progress to done, failed or skipped, or
in_progress back to queued with next_run set to a future time. In the
concrete expected-absence run below the handler writes skipped and the
worker loop then overwrites it with done, so the persisted sequence
contains the transition skipped to done and is not a valid path of the
claimed machine; moreover after a retry the persisted next_run still holds
its insert-time value 3, not a future time (only the in-memory copy is
updated). -/
theorem c3_skipped_overwritten_to_done :
    statusHistory (runSteps initState (canonRun 0
        [Step.work (.mirrorPost envAbsent) 10])) 1 =
      ["queued", "in_progress", "in_progress", "skipped", "done"] ∧
    validPath claimEdge (statusHistory (runSteps initState (canonRun 0
        [Step.work (.mirrorPost envAbsent) 10])) 1) = false ∧
    ((getJobRow (runSteps initState (canonRun 1 [])).table 1).map
        (fun r => r.nextRun) = some (some 3)) := by
  decide

/-- Claim C3 amended: along the canonical dispatcher and worker schedules
(k transient failures then success, exhaustion after six failures of a
max_retries 5 job, or expected absence), the persisted status sequence is
a valid path of the machine queued to in_progress to done, failed or
skipped, with in_progress back to queued on retry, extended by the edge
skipped to done (the worker loop overwrites the handler-written skipped
with done); the retry transition leaves the persisted next_run unchanged
at its insert-time value, setting only the in-memory job's next_run to a
future time. -/
theorem c3_canonical_paths_valid (k : Nat) (hk : k ≤ 5) :
    validPath extEdge (statusHistory (runSteps initState
        (canonRun k [Step.work .ok 20])) 1) = true ∧
    validPath extEdge (statusHistory (runSteps initState
        (canonRun 6 [])) 1) = true ∧
    validPath extEdge (statusHistory (runSteps initState
        (canonRun 0 [Step.work (.mirrorPost envAbsent) 10])) 1) = true ∧
    ((getJobRow (runSteps initState
        (canonRun k [Step.work .ok 20])).table 1).map
      (fun r => r.nextRun) = some (some 3)) := by
  interval_cases k <;> exact ⟨by decide, by decide, by decide, by decide⟩

/-- Witness for the amended C3 at the concrete retry count k = 2. -/
theorem c3_canonical_paths_valid_witness :
    (2 ≤ 5) ∧
    (validPath extEdge (statusHistory (runSteps initState
        (canonRun 2 [Step.work .ok 20])) 1) = true ∧
     validPath extEdge (statusHistory (runSteps initState
        (canonRun 6 [])) 1) = true ∧
     validPath extEdge (statusHistory (runSteps initState
        (canonRun 0 [Step.work (.mirrorPost envAbsent) 10])) 1) = true ∧
     ((getJobRow (runSteps initState
        (canonRun 2 [Step.work .ok 20])).table 1).map
       (fun r => r.nextRun) = some (some 3))) :=
  ⟨by decide, c3_canonical_paths_valid 2 (by decide)⟩

/-! ### Claim C4 -/

/-- Claim C4 counterexample: the claim states the retries field never
exceeds max_retries. After five failures of a default job (max_retries 5)
the in-memory job carries retries = 5; its sixth failure marks the row
failed, and _handle_failure has set the retries field to 6, which exceeds
max_retries = 5, refuting the bound. -/
theorem c4_retries_exceeds_max :
    ((runSteps initState (canonRun 5 [])).wq.head?.map
        (fun j => (j.retries, j.maxRetries)) = some (5, 5)) ∧
    ((runSteps initState (canonRun 6 [])).table.map
        (fun r => r.status) = ["failed"]) ∧
    ((runSteps initState (canonRun 5 [])).wq.head?.map
        (fun j => (handleFailure j 10).fst.retries) = some 6) := by
  decide

/-- Concrete fresh default job for the Reddit post p1 without a DB id. -/
def jobFresh : Job := { jtype := "mirror_post", payload := plP1 }

/-- Claim C4 amended: the retries field exceeds max_retries by exactly one
and only at the moment the job is marked failed: _handle_failure always
increments retries by one, a job is re-queued only while the incremented
retries is at most max_retries, and along the canonical schedule every
job sitting in the intake queue after k failures carries retries = k, at
most max_retries. -/
theorem c4_requeue_bound (k : Nat) (hk : k ≤ 5) :
    ((runSteps initState (canonRun k [])).wq.head?.map
        (fun j => j.retries) = some k) ∧
    (∀ (j : Job) (now : Nat),
      (handleFailure j now).fst.retries = j.retries + 1) ∧
    (∀ (j : Job) (now : Nat), (handleFailure j now).snd ≠ none →
      (handleFailure j now).fst.retries ≤ j.maxRetries) := by
  refine ⟨?_, ?_, ?_⟩
  · interval_cases k <;> decide
  · intro j now
    by_cases hc : j.retries + 1 > j.maxRetries <;> simp [handleFailure, hc]
  · intro j now h
    by_cases hc : j.retries + 1 > j.maxRetries
    · exfalso
      apply h
      simp [handleFailure, hc]
    · simp only [handleFailure, hc]
      simp only [gt_iff_lt, not_lt] at hc
      simpa using hc

/-- Witness for the amended C4 at k = 3 and a concrete job: after three
failures the queued copy carries retries 3; _handle_failure increments a
fresh job's retries to 1 and, the job being re-queued, stays within its
max_retries. -/
theorem c4_requeue_bound_witness :
    (3 ≤ 5) ∧
    ((runSteps initState (canonRun 3 [])).wq.head?.map
        (fun j => j.retries) = some 3) ∧
    ((handleFailure jobFresh 7).fst.retries = jobFresh.retries + 1) ∧
    ((handleFailure jobFresh 7).snd ≠ none) ∧
    ((handleFailure jobFresh 7).fst.retries ≤ jobFresh.maxRetries) :=
  ⟨by decide, (c4_requeue_bound 3 (by decide)).1,
   (c4_requeue_bound 3 (by decide)).2.1 jobFresh 7,
   by decide,
   (c4_requeue_bound 3 (by decide)).2.2 jobFresh 7 (by decide)⟩

/-! ### Claim C5 -/

/-- Concrete fresh job for the Reddit post p1, DB id 1. -/
def jobP1 : Job := { jtype := "mirror_post", payload := plP1, id := some 1 }

/-- Concrete fresh job for the Reddit post p2, DB id 2. -/
def jobP2 : Job :=
  { jtype := "mirror_post", payload := { redditPostId := some "p2" },
    id := some 2 }

/-- Concrete job for p1 that has already failed once. -/
def jobP1r1 : Job :=
  { jtype := "mirror_post", payload := plP1, retries := 1, id := some 1 }

/-- Concrete job for p2 that has already failed twice. -/
def jobP2r2 : Job :=
  { jtype := "mirror_post", payload := { redditPostId := some "p2" },
    retries := 2, id := some 2 }

/-- Claim C5 counterexample: the claim states the retry delay is capped
and randomized by jitter so that two jobs failing simultaneously do not
retry at the identical instant. Two distinct jobs with equal retry counts
failing at time 100 are both rescheduled to the identical instant 102:
the delay 2 ** retries carries no jitter. -/
theorem c5_identical_retry_instants :
    jobP1 ≠ jobP2 ∧
    (handleFailure jobP1 100).fst.nextRun = some 102 ∧
    (handleFailure jobP2 100).fst.nextRun = some 102 := by
  decide

/-- Claim C5 amended: the retry delay equals 2 raised to the incremented
retries count, with no cap and no jitter; the delay is non-decreasing
(indeed strictly increasing) in the retries count, and jobs with equal
retry counts failing at the same instant are rescheduled to the identical
instant. -/
theorem c5_backoff_formula_monotone (j1 j2 : Job) (now : Nat)
    (h1 : j1.retries + 1 ≤ j1.maxRetries)
    (h2 : j2.retries + 1 ≤ j2.maxRetries)
    (hle : j1.retries ≤ j2.retries) :
    (handleFailure j1 now).snd = some (2 ^ (j1.retries + 1)) ∧
    (handleFailure j1 now).fst.nextRun = some (now + 2 ^ (j1.retries + 1)) ∧
    (∀ d1 d2 : Nat, (handleFailure j1 now).snd = some d1 →
      (handleFailure j2 now).snd = some d2 → d1 ≤ d2) := by
  have hc1 : ¬ (j1.retries + 1 > j1.maxRetries) := by omega
  have hc2 : ¬ (j2.retries + 1 > j2.maxRetries) := by omega
  refine ⟨?_, ?_, ?_⟩
  · unfold handleFailure
    simp [hc1]
  · unfold handleFailure
    simp [hc1]
  · intro d1 d2 hd1 hd2
    unfold handleFailure at hd1 hd2
    simp [hc1] at hd1
    simp [hc2] at hd2
    subst hd1; subst hd2
    exact Nat.pow_le_pow_right (by omega) (by omega)

/-- Witness for the amended C5 at concrete jobs with retry counts 1 and 2
failing at time 50: the delays are 4 and 8 and the first is rescheduled to
instant 54. -/
theorem c5_backoff_formula_monotone_witness :
    (jobP1r1.retries + 1 ≤ jobP1r1.maxRetries) ∧
    (jobP2r2.retries + 1 ≤ jobP2r2.maxRetries) ∧
    (jobP1r1.retries ≤ jobP2r2.retries) ∧
    ((handleFailure jobP1r1 50).snd = some (2 ^ (jobP1r1.retries + 1)) ∧
     (handleFailure jobP1r1 50).fst.nextRun =
       some (50 + 2 ^ (jobP1r1.retries + 1)) ∧
     (∀ d1 d2 : Nat, (handleFailure jobP1r1 50).snd = some d1 →
       (handleFailure jobP2r2 50).snd = some d2 → d1 ≤ d2)) :=
  ⟨by decide, by decide, by decide,
   c5_backoff_formula_monotone jobP1r1 jobP2r2 50
     (by decide) (by decide) (by decide)⟩

/-! ### Claim C8 -/

/-- Claim C8 counterexample: the claim states that on expected absence the
job ends in status skipped and the source id is added to the Ignored set.
In the concrete run below the handler writes skipped but returns normally,
so the worker loop overwrites the row with done — the final status is done,
not skipped — and the Ignored set is untouched: is_ignored(p1) stays
false. -/
theorem c8_absent_ends_done_not_ignored :
    ((getJobRow (runSteps initState (canonRun 0
        [Step.work (.mirrorPost envAbsent) 10])).table 1).map
      (fun r => r.status) = some "done") ∧
    ((runSteps initState (canonRun 0
        [Step.work (.mirrorPost envAbsent) 10])).ignored = []) ∧
    isIgnored (runSteps initState (canonRun 0
        [Step.work (.mirrorPost envAbsent) 10])).ignored "p1" = false := by
  decide

lemma isIgnored_iff (ign : List (String × String)) (p : String) :
    isIgnored ign p = true ↔ p ∈ getIgnoredPosts ign := by
  unfold isIgnored
  exact List.elem_iff

lemma isIgnored_mark_mono (ign : List (String × String)) (r reason p : String)
    (h : isIgnored ign p = true) :
    isIgnored (markPostIgnored ign r reason) p = true := by
  rw [isIgnored_iff] at h ⊢
  unfold markPostIgnored
  split
  · exact h
  · simp only [getIgnoredPosts, List.map_append] at h ⊢
    exact List.mem_append_left _ h

lemma isIgnored_mark_self (ign : List (String × String)) (p reason : String) :
    isIgnored (markPostIgnored ign p reason) p = true := by
  rw [isIgnored_iff]
  unfold markPostIgnored
  split
  · next hany =>
    rcases List.any_eq_true.mp hany with ⟨q, hq, hbeq⟩
    simp only [getIgnoredPosts]
    exact List.mem_map.mpr ⟨q, hq, by simpa using hbeq⟩
  · simp [getIgnoredPosts]

lemma syncFold_ignored_mono (snapshot : List String)
    (fetch : String → FetchComments) (posts : List String)
    (acc : List (String × String) × List String) (p : String)
    (h : isIgnored acc.fst p = true) :
    isIgnored (posts.foldl (syncStep snapshot fetch) acc).fst p = true := by
  induction posts generalizing acc with
  | nil => exact h
  | cons a l ih =>
    apply ih
    unfold syncStep
    split
    · exact h
    · cases hf : fetch a
      · exact h
      · exact isIgnored_mark_mono acc.fst a "forbidden" p h
      · exact h

lemma syncFold_marks (snapshot : List String)
    (fetch : String → FetchComments) (posts : List String)
    (acc : List (String × String) × List String) (p : String)
    (hp : p ∈ posts) (hf : fetch p = .forbidden)
    (hs : snapshot.contains p = false) :
    isIgnored (posts.foldl (syncStep snapshot fetch) acc).fst p = true := by
  induction posts generalizing acc with
  | nil => cases hp
  | cons a l ih =>
    rcases List.mem_cons.mp hp with h1 | h1
    · subst h1
      show isIgnored (l.foldl (syncStep snapshot fetch)
        (syncStep snapshot fetch acc p)).fst p = true
      apply syncFold_ignored_mono
      unfold syncStep
      split
      · next hc => exact absurd hc (by simpa using hs)
      · rw [hf]
        exact isIgnored_mark_self acc.fst p "forbidden"
    · exact ih _ h1

lemma syncFold_skips (snapshot : List String)
    (fetch : String → FetchComments) (posts : List String)
    (acc : List (String × String) × List String) (p : String)
    (hs : snapshot.contains p = true) (hacc : p ∉ acc.snd) :
    p ∉ (posts.foldl (syncStep snapshot fetch) acc).snd := by
  induction posts generalizing acc with
  | nil => exact hacc
  | cons a l ih =>
    apply ih
    unfold syncStep
    split
    · exact hacc
    · next hca =>
      cases hf : fetch a
      · intro hmem
        rcases List.mem_append.mp hmem with h1 | h1
        · exact hacc h1
        · have hap : p = a := by simpa using h1
          rw [hap] at hs
          exact hca (by simpa using hs)
      · exact hacc
      · exact hacc

/-- Claim C8 amended: the mirror_post handler marks its own job row
skipped but the worker loop then overwrites it to done, and the handler
never touches the Ignored set; it is the comment-sync pass that, on a
forbidden source post, marks the post ignored, after which is_ignored
holds and every later comment-sync pass short-circuits on that post
without processing it (re-enqueue of mirror jobs is suppressed separately
by the jobs-table existence check of discovery). This theorem proves the
comment-sync part: a post whose fetch is forbidden in one pass is ignored
afterwards and is not attempted by any subsequent pass. -/
theorem c8_forbidden_marks_ignored_then_skipped
    (ign : List (String × String)) (posts posts2 : List String)
    (fetch fetch2 : String → FetchComments) (p : String)
    (hp : p ∈ posts) (hf : fetch p = .forbidden) :
    isIgnored (commentSyncPass ign posts fetch).fst p = true ∧
    p ∉ (commentSyncPass (commentSyncPass ign posts fetch).fst
          posts2 fetch2).snd := by
  have h1 : isIgnored (commentSyncPass ign posts fetch).fst p = true := by
    unfold commentSyncPass
    by_cases hs : (getIgnoredPosts ign).contains p = true
    · exact syncFold_ignored_mono _ fetch posts (ign, []) p hs
    · exact syncFold_marks _ fetch posts (ign, []) p hp hf
        (Bool.not_eq_true _ ▸ hs)
  refine ⟨h1, ?_⟩
  unfold commentSyncPass
  exact syncFold_skips _ fetch2 posts2 _ p h1 (by simp)

/-- Witness for the amended C8 at a concrete input: starting from an
empty ignored store, a pass over the single post p1 whose comment fetch
is forbidden marks p1 ignored, and a second pass (whose fetch would
succeed) does not attempt p1. -/
theorem c8_forbidden_marks_ignored_then_skipped_witness :
    ("p1" ∈ ["p1"]) ∧
    ((fun _ => FetchComments.forbidden) "p1" = FetchComments.forbidden) ∧
    (isIgnored (commentSyncPass [] ["p1"]
        (fun _ => FetchComments.forbidden)).fst "p1" = true ∧
     "p1" ∉ (commentSyncPass
        (commentSyncPass [] ["p1"] (fun _ => FetchComments.forbidden)).fst
        ["p1"] (fun _ => FetchComments.ok)).snd) :=
  ⟨by decide, rfl,
   c8_forbidden_marks_ignored_then_skipped [] ["p1"] ["p1"]
     (fun _ => FetchComments.forbidden) (fun _ => FetchComments.ok) "p1"
     (by decide) rfl⟩

/-! ### Claim C9 -/

/-- Claim C9 counterexample: the claim states that concurrent get_token
refreshes within the cooldown window produce exactly one remote login. In
the interleaving below both tasks run the exists/mtime check of
_acquire_login_lock before either touches the lock file, so both proceed
to the login: two remote login requests are issued. -/
theorem c9_two_logins_interleaving :
    (runSched
      { shared := { lockMtime := none, token := none, logins := 0 },
        pcA := .checkLock, pcB := .checkLock }
      [false, true, false, false, false, true, true, true]
      1000).shared.logins = 2 ∧
    (runSched
      { shared := { lockMtime := none, token := none, logins := 0 },
        pcA := .checkLock, pcB := .checkLock }
      [false, true, false, false, false, true, true, true]
      1000).pcA = .finished 1 ∧
    (runSched
      { shared := { lockMtime := none, token := none, logins := 0 },
        pcA := .checkLock, pcB := .checkLock }
      [false, true, false, false, false, true, true, true]
      1000).pcB = .finished 2 := by
  decide

/-- Claim C9 amended: when one caller's lock check and touch both complete
before the other caller's check, the second caller observes the recent
lock timestamp, waits, re-reads the cached token and returns it without a
second login; but the check and the touch are separate steps, so two
callers that both check before either touches each issue a login. This
theorem proves the serialized case: a task entering _refresh_token while
the lock is younger than LOGIN_LOCK_TIMEOUT and the cached token is
unexpired finishes with the cached token after three steps, leaving the
shared state — the login count included — unchanged. -/
theorem c9_waiter_reuses_cached_token (sh : CredState) (m j e now : Nat)
    (hl : sh.lockMtime = some m) (hrecent : now - m < loginLockTimeout)
    (ht : sh.token = some (j, e)) (hv : now < e) :
    ((refreshStep (refreshStep (refreshStep sh .checkLock now).fst
        (refreshStep sh .checkLock now).snd now).fst
      (refreshStep (refreshStep sh .checkLock now).fst
        (refreshStep sh .checkLock now).snd now).snd now) =
      (sh, .finished j)) := by
  simp [refreshStep, hl, hrecent, ht, hv]

/-- Concrete shared credential state: lock touched at time 100, cached
token 7 expiring at time 5000, one login recorded. -/
def credCached : CredState :=
  { lockMtime := some 100, token := some (7, 5000), logins := 1 }

/-- Witness for the amended C9 at a concrete state: against credCached a
caller at time 150 finishes with the cached token 7, leaving the single
recorded login untouched. -/
theorem c9_waiter_reuses_cached_token_witness :
    (credCached.lockMtime = some 100) ∧
    (150 - 100 < loginLockTimeout) ∧
    (credCached.token = some (7, 5000)) ∧
    (150 < 5000) ∧
    ((refreshStep (refreshStep (refreshStep credCached .checkLock 150).fst
        (refreshStep credCached .checkLock 150).snd 150).fst
      (refreshStep (refreshStep credCached .checkLock 150).fst
        (refreshStep credCached .checkLock 150).snd 150).snd 150) =
      (credCached, .finished 7)) :=
  ⟨rfl, by decide, rfl, by decide,
   c9_waiter_reuses_cached_token credCached 100 7 5000 150 rfl (by decide)
     rfl (by decide)⟩

end Mirror
